import Mathlib

/-!
Shallow embedding of the CRI-O runtime client of chaosblade-exec-cri
(files exec/container/crio/crio.go and exec/container/cri-o/crio-linux.go).

External effects (gRPC calls, helper-process invocations, file opening,
JSON unmarshalling from encoding/json) are modelled as explicit inputs:
each embedded function takes the outcomes of the external calls it makes,
in the order the source makes them, and additionally returns the list of
RPC calls it issued where a claim depends on that sequence.
-/

namespace Crio

/-- Association-list lookup, modelling Go map indexing with the comma-ok
form: `some v` when the key is present, `none` otherwise. Go maps have
unique keys, so first-match lookup is adequate. -/
def lookupA {α : Type} (m : List (String × α)) (k : String) : Option α :=
  match m with
  | [] => none
  | (k2, v) :: rest => if k2 = k then some v else lookupA rest k

/-- Go map indexing without the comma-ok form on a map of strings: yields
the zero value of string, the empty string, when the key is absent. -/
def lookupD (m : List (String × String)) (k : String) : String :=
  (lookupA m k).getD ""

/-- A Go computation that either returns a value or panics at runtime
(failed interface type assertion, nil pointer dereference). -/
inductive GoResult (α : Type) where
  | ok (v : α)
  | panics
deriving DecidableEq

/-- Response codes taken from the external chaosblade-spec-go spec
package: spec.OK.Code, spec.ContainerExecFailed.Code,
spec.CreateContainerFailed.Code. Only their identity matters here. -/
inductive RespCode where
  | okCode
  | containerExecFailed
  | createContainerFailed
deriving DecidableEq

/-- Values produced by Go encoding/json unmarshalling into
map[string]interface\x7b\x7d entries: JSON numbers decode to float64.
The pid values of interest are integral, so numbers are carried as Int. -/
inductive JValue where
  | jnull
  | jbool (b : Bool)
  | jnum (n : Int)
  | jstr (s : String)
  | jarr (elems : List JValue)
  | jobj (fields : List (String × JValue))

/-- Go interface type assertion v.(float64) on a map-lookup result:
returns the number when the dynamic type is float64 and panics otherwise,
including when the key was absent (assertion on a nil interface value). -/
def assertFloat64 : Option JValue → GoResult Int
  | some (JValue.jnum n) => GoResult.ok n
  | _ => GoResult.panics

/-- Go conversion int32(f) of an integral float64 value, wrapping to the
signed 32-bit range. -/
def toInt32 (n : Int) : Int :=
  (n + 2 ^ 31) % 2 ^ 32 - 2 ^ 31

/-- The generic container.ContainerInfo projection produced by this
client (identifier, display name, label mapping; Spec is always nil). -/
structure ContainerInfo where
  containerId : String
  containerName : String
  labels : Option (List (String × String))
deriving DecidableEq

/-- Zero value of ContainerInfo, as produced by var containerInfo in Go. -/
def ContainerInfo.empty : ContainerInfo := ⟨"", "", none⟩

/-- v1.ContainerMetadata: the name field used by this client. -/
structure ContainerMetadata where
  name : String
deriving DecidableEq

/-- v1.ContainerStatus as used here: Id, Metadata (a nullable pointer),
Labels (a possibly nil map). -/
structure ContainerStatus where
  id : String
  metadata : Option ContainerMetadata
  labels : Option (List (String × String))
deriving DecidableEq

/-- v1.ContainerStatusResponse as used here: Status (nullable pointer) and
Info (possibly nil map from string to string). -/
structure ContainerStatusResponse where
  status : Option ContainerStatus
  info : Option (List (String × String))
deriving DecidableEq

/-- v1.Container as it appears in list responses: Id, Metadata (nullable),
Labels (possibly nil map). -/
structure CriContainer where
  id : String
  metadata : Option ContainerMetadata
  labels : Option (List (String × String))
deriving DecidableEq

/-- Outcome of one external helper-process invocation via exec.Command:
the bytes captured in the stdout buffer, the bytes captured in the stderr
buffer, and the error returned by cmd.Run (none when the process started
and exited with status zero). -/
structure RunOutcome where
  out : String
  errOut : String
  runErr : Option String
deriving DecidableEq

/-- crioExecContainer from crio-linux.go. The helper invocation is built
from the pid and command and run once; its outcome is the input here.
Returns (output, error) exactly as the source does: a run error yields
empty output and that error; otherwise non-empty stderr content is
returned as the successful output; otherwise stdout is returned. -/
def crioExecContainer (run : RunOutcome) : String × Option String :=
  match run.runErr with
  | some e => ("", some e)
  | none =>
    if run.errOut.length > 0 then (run.errOut, none)
    else (run.out, none)

/-- crioCopyToContainer from crio-linux.go. Inputs are the outcome of
os.Open on the source file, the outcome of the cat-upload invocation
(run1) and the outcome of the tar-extract invocation (run2), which the
source runs in that order with short-circuiting. Returns the error value
(none means nil). Note: on a non-empty stderr buffer of the tar stage the
source returns errors.New(errMsg.String()) where errMsg is the buffer of
the FIRST stage (line 65 of crio-linux.go), not errMsg2. -/
def crioCopyToContainer (openResult : Except String Unit)
    (run1 run2 : RunOutcome) : Option String :=
  match openResult with
  | Except.error e => some e
  | Except.ok _ =>
    match run1.runErr with
    | some e => some e
    | none =>
      if run1.errOut.length ≠ 0 then some run1.errOut
      else
        match run2.runErr with
        | some e => some e
        | none =>
          if run2.errOut.length ≠ 0 then some run1.errOut
          else none

/-- Possible values of ctx.Err() for a Go context. -/
inductive CtxErrKind where
  | noErr
  | canceled
  | deadlineExceeded
deriving DecidableEq

/-- Error state of the context built in NewClient:
context.WithCancel(namespaces.WithNamespace(context.Background(), ns)).
A cancel-only context derived from Background carries no deadline, so its
Err() is nil or context.Canceled — never context.DeadlineExceeded. -/
def newClientCtxErr (ctxCanceled : Bool) : CtxErrKind :=
  if ctxCanceled then CtxErrKind.canceled else CtxErrKind.noErr

/-- NewClient from crio.go, reduced to its observable result: the dial
outcome is an input (none = connection established, some e = dial error
with message e), and ctxCanceled says whether the cancellable context had
been cancelled when the error branch inspects ctx.Err(). On a dial error
the source distinguishes ctx.Err() == context.DeadlineExceeded (the error
wraps ctx.Err()) from every other failure (the error holds err). -/
def NewClient (endpoint namespaceArg : String) (dialErr : Option String)
    (ctxCanceled : Bool) : Except String Unit :=
  let endpoint2 :=
    if endpoint = "" then "unix:///var/run/crio/crio.sock" else endpoint
  let _namespace2 :=
    if namespaceArg = "" then "k8s.io" else namespaceArg
  match dialErr with
  | none => Except.ok ()
  | some e =>
    if newClientCtxErr ctxCanceled = CtxErrKind.deadlineExceeded then
      Except.error ("failed to connect to crio endpoint " ++ endpoint2 ++
        ": context deadline exceeded")
    else
      Except.error ("failed to connect to crio endpoint " ++ endpoint2 ++
        ": " ++ e)

/-- convertContainerInfo from crio.go. Reads containerDetail.Metadata.Name
directly, which is a nil pointer dereference (runtime panic) when the
Metadata field is nil. -/
def convertContainerInfo (containerDetail : ContainerStatus) :
    GoResult ContainerInfo :=
  match containerDetail.metadata with
  | none => GoResult.panics
  | some md => GoResult.ok ⟨containerDetail.id, md.name, containerDetail.labels⟩

/-- GetContainerById from crio.go. The verbose ContainerStatus RPC outcome
is the input: Except.error e is an RPC error, Except.ok none a nil
response pointer. Returns the Go triple (ContainerInfo, error, code). -/
def GetContainerById (containerId : String)
    (rpc : Except String (Option ContainerStatusResponse)) :
    GoResult (ContainerInfo × Option String × RespCode) :=
  match rpc with
  | Except.error e =>
    GoResult.ok (ContainerInfo.empty,
      some ("failed to get container status for container " ++ containerId ++
        ": " ++ e), RespCode.containerExecFailed)
  | Except.ok none =>
    GoResult.ok (ContainerInfo.empty,
      some ("no response status found for container " ++ containerId),
      RespCode.containerExecFailed)
  | Except.ok (some response) =>
    match response.status with
    | none =>
      GoResult.ok (ContainerInfo.empty,
        some ("no response status found for container " ++ containerId),
        RespCode.containerExecFailed)
    | some st =>
      match convertContainerInfo st with
      | GoResult.panics => GoResult.panics
      | GoResult.ok info => GoResult.ok (info, none, RespCode.okCode)

/-- GetPidById from crio.go. Inputs: the verbose ContainerStatus RPC
outcome and the behaviour of json.Unmarshal from encoding/json (external
library) on the info["info"] string, as a function from that string to
either a decode error or the decoded top-level JSON object. The source
reads dataMap["pid"].(float64) without the comma-ok form and converts the
result with int32(...). -/
def GetPidById (containerId : String)
    (rpc : Except String (Option ContainerStatusResponse))
    (unmarshal : String → Except String (List (String × JValue))) :
    GoResult (Int × Option String × RespCode) :=
  match rpc with
  | Except.error e =>
    GoResult.ok (-1,
      some ("failed to get container status and info for container " ++
        containerId ++ ": " ++ e), RespCode.containerExecFailed)
  | Except.ok none =>
    GoResult.ok (-1,
      some ("container info is nil for container " ++ containerId),
      RespCode.containerExecFailed)
  | Except.ok (some response) =>
    match response.info with
    | none =>
      GoResult.ok (-1,
        some ("container info is nil for container " ++ containerId),
        RespCode.containerExecFailed)
    | some infoMap =>
      match unmarshal (lookupD infoMap "info") with
      | Except.error e =>
        GoResult.ok (-1,
          some ("json.Unmarshal container info error for container " ++
            containerId ++ "," ++ e), RespCode.containerExecFailed)
      | Except.ok dataMap =>
        match assertFloat64 (lookupA dataMap "pid") with
        | GoResult.panics => GoResult.panics
        | GoResult.ok n => GoResult.ok (toInt32 n, none, RespCode.okCode)

/-- convertContainerInfo2 from crio.go, used on list entries. Same nil
Metadata dereference hazard as convertContainerInfo. -/
def convertContainerInfo2 (containerDetail : CriContainer) :
    GoResult ContainerInfo :=
  match containerDetail.metadata with
  | none => GoResult.panics
  | some md => GoResult.ok ⟨containerDetail.id, md.name, containerDetail.labels⟩

/-- matchLabels from crio.go: false when the label map is nil; otherwise
every selector key must be present with an equal value. -/
def matchLabels (c : CriContainer)
    (labelSelector : List (String × String)) : Bool :=
  match c.labels with
  | none => false
  | some labels =>
    labelSelector.all (fun kv => lookupA labels kv.1 == some kv.2)

/-- GetContainerByLabelSelector from crio.go. The ListContainers RPC
outcome is the input. The source filters with matchLabels, fails when the
filtered slice is empty (the message formats the nil err value as <nil>),
and otherwise projects the first filtered container. -/
def GetContainerByLabelSelector
    (listResult : Except String (List CriContainer))
    (labels : List (String × String)) :
    GoResult (ContainerInfo × Option String × RespCode) :=
  match listResult with
  | Except.error e =>
    GoResult.ok (ContainerInfo.empty,
      some ("failed to list containers: " ++ e), RespCode.containerExecFailed)
  | Except.ok containers =>
    match containers.filter (fun c => matchLabels c labels) with
    | [] =>
      GoResult.ok (ContainerInfo.empty, some "no containers found: <nil>",
        RespCode.containerExecFailed)
    | c :: _ =>
      match convertContainerInfo2 c with
      | GoResult.panics => GoResult.panics
      | GoResult.ok info => GoResult.ok (info, none, RespCode.okCode)

/-- The runtime-service and image-service RPC calls this client issues,
with the request fields the claims depend on. -/
inductive RpcCall where
  | imageStatus (image : String)
  | pullImage (image : String)
  | createContainer (name : String)
  | startContainer (id : String)
  | execSync (id : String) (cmd : List String) (timeoutSec : Int)
  | stopContainer (id : String) (timeout : Int)
  | removeContainer (id : String)
deriving DecidableEq

/-- RemoveContainer from crio.go: StopContainer with the fixed timeout 15,
then RemoveContainer; either RPC error is wrapped and returned. The force
parameter is accepted but never read. Returns the Go error (none = nil)
and the sequence of RPC calls issued. -/
def RemoveContainer (containerId : String) (force : Bool)
    (stopResult removeResult : Except String Unit) :
    Option String × List RpcCall :=
  match stopResult with
  | Except.error e =>
    (some ("failed to stop container " ++ containerId ++ ": " ++ e),
     [RpcCall.stopContainer containerId 15])
  | Except.ok _ =>
    match removeResult with
    | Except.error e =>
      (some ("failed to remove container " ++ containerId ++ ": " ++ e),
       [RpcCall.stopContainer containerId 15,
        RpcCall.removeContainer containerId])
    | Except.ok _ =>
      (none,
       [RpcCall.stopContainer containerId 15,
        RpcCall.removeContainer containerId])

/-- RPC outcomes consumed by CreateContainer, in source order. The image
status result is received and immediately discarded by the source. -/
structure CreateEnv where
  imageStatusResult : Except String Unit
  pullImageResult : Except String Unit
  createResult : Except String String

/-- CreateContainer from crio.go: issues ImageStatus (result discarded),
PullImage (failure wrapped and returned), then CreateContainer, returning
the new container id. Also returns the RPC call sequence issued. -/
def CreateContainer (image containerName : String) (env : CreateEnv) :
    Except String String × List RpcCall :=
  match env.pullImageResult with
  | Except.error e =>
    (Except.error ("failed to pull image " ++ image ++ ": " ++ e),
     [RpcCall.imageStatus image, RpcCall.pullImage image])
  | Except.ok _ =>
    match env.createResult with
    | Except.error e =>
      (Except.error ("failed to create container: " ++ e),
       [RpcCall.imageStatus image, RpcCall.pullImage image,
        RpcCall.createContainer containerName])
    | Except.ok cid =>
      (Except.ok cid,
       [RpcCall.imageStatus image, RpcCall.pullImage image,
        RpcCall.createContainer containerName])

/-- v1.ExecSyncResponse as used by ExecuteAndRemove: the exit code and the
protobuf String() rendering returned as output on success. -/
structure ExecSyncResp where
  exitCode : Int
  repr : String
deriving DecidableEq

/-- RPC outcomes consumed by ExecuteAndRemove, in source order. -/
structure ExecEnv where
  create : CreateEnv
  startResult : Except String Unit
  execResult : Except String ExecSyncResp
  stopResult : Except String Unit
  removeResult : Except String Unit

/-- ExecuteAndRemove from crio.go: create → start → ExecSync (timeout in
whole seconds, command list config.Cmd, defaulted to [command] when nil) →
stop (timeout 10) → remove. Returns the Go quadruple (containerId, output,
error, code) and the RPC call sequence issued. Error messages follow the
source fmt strings; the ExecSync RPC error message passes one argument for
two verbs, so %v renders as missing, and the nonzero-exit and stop-error
branches format the same "command in container failed" string (with the
nil err rendering as <nil> on the nonzero-exit branch). -/
def ExecuteAndRemove (image containerName : String)
    (configCmd : Option (List String)) (timeoutSec : Int) (command : String)
    (env : ExecEnv) :
    (String × String × Option String × RespCode) × List RpcCall :=
  match CreateContainer image containerName env.create with
  | (Except.error e, calls) =>
    (("", "", some ("CreateContainer error:" ++ e),
      RespCode.createContainerFailed), calls)
  | (Except.ok containerId, calls) =>
    match env.startResult with
    | Except.error e =>
      (("", "", some ("StartContainer error:" ++ e),
        RespCode.createContainerFailed),
       calls ++ [RpcCall.startContainer containerId])
    | Except.ok _ =>
      let cmd := configCmd.getD [command]
      let calls2 := calls ++ [RpcCall.startContainer containerId,
        RpcCall.execSync containerId cmd timeoutSec]
      match env.execResult with
      | Except.error e =>
        ((containerId, "",
          some ("failed to execute command in container " ++ e ++
            ": %!v(MISSING)"), RespCode.createContainerFailed), calls2)
      | Except.ok resp =>
        if resp.exitCode ≠ 0 then
          ((containerId, "", some "command in container failed : <nil>",
            RespCode.containerExecFailed), calls2)
        else
          match env.stopResult with
          | Except.error e =>
            ((containerId, "", some ("command in container failed : " ++ e),
              RespCode.containerExecFailed),
             calls2 ++ [RpcCall.stopContainer containerId 10])
          | Except.ok _ =>
            match env.removeResult with
            | Except.error e =>
              ((containerId, "",
                some ("failed to remove container : " ++ e),
                RespCode.containerExecFailed),
               calls2 ++ [RpcCall.stopContainer containerId 10,
                RpcCall.removeContainer containerId])
            | Except.ok _ =>
              ((containerId, resp.repr, none, RespCode.okCode),
               calls2 ++ [RpcCall.stopContainer containerId 10,
                RpcCall.removeContainer containerId])

/-- A string has length zero exactly when it is empty; relates the Go
bytes.Buffer Len test to string emptiness. -/
theorem string_length_eq_zero (s : String) : s.length = 0 ↔ s = "" := by
  obtain ⟨data⟩ := s
  simp [String.length, List.length_eq_zero, String.ext_iff]

/-- C1: the claim states that GetPidById returns a ContainerExecFailed
lookup failure and never panics when the info payload decodes as JSON but
the decoded object has no pid key or a non-numeric pid value. The source
performs the bare type assertion dataMap["pid"].(float64), which panics in
both situations; this evaluates the embedding at both failing inputs (an
empty JSON object, and an object whose pid is a string). -/
theorem GetPidById_missing_or_nonnumeric_pid_panics :
    GetPidById "c1"
      (Except.ok (some ⟨some ⟨"c1", some ⟨"name"⟩, none⟩,
        some [("info", "\x7b\x7d")]⟩))
      (fun _ => Except.ok []) = GoResult.panics ∧
    GetPidById "c1"
      (Except.ok (some ⟨some ⟨"c1", some ⟨"name"⟩, none⟩,
        some [("info", "\x7b\"pid\": \"no\"\x7d")]⟩))
      (fun _ => Except.ok [("pid", JValue.jstr "no")]) = GoResult.panics :=
  ⟨rfl, rfl⟩

/-- C2: the claim states that when the upload stage fully succeeded and
the tar-extract stage exits zero with non-empty stderr, the returned error
carries the tar stage's stderr content. The source instead builds the
error from the upload stage's stderr buffer, which is empty on this path,
so the returned error has the empty message, not the tar stderr. -/
theorem crioCopyToContainer_tar_stderr_dropped :
    crioCopyToContainer (Except.ok ()) ⟨"", "", none⟩
      ⟨"", "tar: invalid archive", none⟩ = some "" ∧
    ("" : String) ≠ "tar: invalid archive" := by
  refine ⟨rfl, by decide⟩

/-- C3: crioExecContainer returns the run error with empty output when the
invocation fails to start or run; otherwise non-empty stderr content is
returned as the successful output with a nil error; otherwise stdout is
returned with a nil error. -/
theorem crioExecContainer_contract (run : RunOutcome) :
    (∀ e, run.runErr = some e → crioExecContainer run = ("", some e)) ∧
    (run.runErr = none → run.errOut ≠ "" →
      crioExecContainer run = (run.errOut, none)) ∧
    (run.runErr = none → run.errOut = "" →
      crioExecContainer run = (run.out, none)) := by
  obtain ⟨out, errOut, runErr⟩ := run
  refine ⟨?_, ?_, ?_⟩
  · rintro e rfl
    rfl
  · rintro rfl h
    have hlen : 0 < errOut.length := by
      rcases Nat.eq_zero_or_pos errOut.length with h0 | h0
      · exact absurd ((string_length_eq_zero errOut).mp h0) h
      · exact h0
    simp [crioExecContainer, hlen]
  · rintro rfl rfl
    rfl

/-- Witness for C3: a run with empty stdout, stderr "err\n" and a zero
exit yields output "err\n" and no error. -/
theorem crioExecContainer_contract_witness :
    crioExecContainer ⟨"", "err\n", none⟩ = ("err\n", none) :=
  (crioExecContainer_contract ⟨"", "err\n", none⟩).2.1 rfl (by decide)

/-- C4 counterexample: a container whose label map is nil does not match
the empty selector under matchLabels, although the claim's predicate —
every key of the selector exists in the mapping with an equal value —
holds vacuously for the empty selector; consequently the lookup fails
although the claim says this container matches and is returned. -/
theorem GetContainerByLabelSelector_nil_labels_counterexample :
    matchLabels ⟨"c1", some ⟨"n"⟩, none⟩ [] = false ∧
    (([] : List (String × String)).all
      (fun kv => lookupA ([] : List (String × String)) kv.1 == some kv.2))
      = true ∧
    GetContainerByLabelSelector (Except.ok [⟨"c1", some ⟨"n"⟩, none⟩]) [] =
      GoResult.ok (ContainerInfo.empty, some "no containers found: <nil>",
        RespCode.containerExecFailed) :=
  ⟨rfl, rfl, rfl⟩

/-- C4 amended: a container matches iff its label mapping is non-nil and
every selector key is present in it with an equal value (in particular the
empty selector matches every container whose label mapping is non-nil);
on a successful list the first match in listing order is returned, and a
lookup failure is returned iff no listed container matches. -/
theorem GetContainerByLabelSelector_amended
    (cs : List CriContainer) (sel : List (String × String)) :
    (∀ c : CriContainer, matchLabels c sel = true ↔
      ∃ ls, c.labels = some ls ∧ ∀ kv ∈ sel, lookupA ls kv.1 = some kv.2) ∧
    (cs.filter (fun c => matchLabels c sel) = [] →
      GetContainerByLabelSelector (Except.ok cs) sel =
        GoResult.ok (ContainerInfo.empty, some "no containers found: <nil>",
          RespCode.containerExecFailed)) ∧
    (∀ c rest, cs.filter (fun c => matchLabels c sel) = c :: rest →
      GetContainerByLabelSelector (Except.ok cs) sel =
        match c.metadata with
        | none => GoResult.panics
        | some md =>
          GoResult.ok (⟨c.id, md.name, c.labels⟩, none, RespCode.okCode)) := by
  refine ⟨?_, ?_, ?_⟩
  · intro c
    obtain ⟨id, md, labels⟩ := c
    cases labels with
    | none => simp [matchLabels]
    | some ls => simp [matchLabels, List.all_eq_true]
  · intro h
    simp [GetContainerByLabelSelector, h]
  · intro c rest h
    obtain ⟨id, md, labels⟩ := c
    cases md with
    | none => simp [GetContainerByLabelSelector, h, convertContainerInfo2]
    | some m => simp [GetContainerByLabelSelector, h, convertContainerInfo2]

/-- Witness for the amended C4: one container carrying label k=v is
matched by the selector [(k, v)] and projected. -/
theorem GetContainerByLabelSelector_amended_witness :
    GetContainerByLabelSelector
      (Except.ok [⟨"c1", some ⟨"n"⟩, some [("k", "v")]⟩]) [("k", "v")] =
      GoResult.ok (⟨"c1", "n", some [("k", "v")]⟩, none, RespCode.okCode) :=
  (GetContainerByLabelSelector_amended
      [⟨"c1", some ⟨"n"⟩, some [("k", "v")]⟩] [("k", "v")]).2.2
    ⟨"c1", some ⟨"n"⟩, some [("k", "v")]⟩ [] (by decide)

/-- C5: when create and start succeed and the ExecSync RPC succeeds with a
nonzero exit code, ExecuteAndRemove returns the created container id, an
error with the ContainerExecFailed code, and the RPC trace ends at the
exec call: no stop or remove RPC is issued. -/
theorem ExecuteAndRemove_nonzero_exit
    (image containerName : String) (configCmd : Option (List String))
    (timeoutSec : Int) (command : String) (env : ExecEnv)
    (cid : String) (resp : ExecSyncResp)
    (hPull : env.create.pullImageResult = Except.ok ())
    (hCreate : env.create.createResult = Except.ok cid)
    (hStart : env.startResult = Except.ok ())
    (hExec : env.execResult = Except.ok resp)
    (hExit : resp.exitCode ≠ 0) :
    ExecuteAndRemove image containerName configCmd timeoutSec command env =
      ((cid, "", some "command in container failed : <nil>",
        RespCode.containerExecFailed),
       [RpcCall.imageStatus image, RpcCall.pullImage image,
        RpcCall.createContainer containerName, RpcCall.startContainer cid,
        RpcCall.execSync cid (configCmd.getD [command]) timeoutSec]) := by
  simp [ExecuteAndRemove, CreateContainer, hPull, hCreate, hStart, hExec,
    hExit]

/-- Witness for C5: exit code 2 leaves the container in place and reports
ContainerExecFailed with the created id. -/
theorem ExecuteAndRemove_nonzero_exit_witness :
    ExecuteAndRemove "img" "cn" none 3 "cmd"
      ⟨⟨Except.ok (), Except.ok (), Except.ok "cid1"⟩, Except.ok (),
        Except.ok ⟨2, "resp"⟩, Except.ok (), Except.ok ()⟩ =
      (("cid1", "", some "command in container failed : <nil>",
        RespCode.containerExecFailed),
       [RpcCall.imageStatus "img", RpcCall.pullImage "img",
        RpcCall.createContainer "cn", RpcCall.startContainer "cid1",
        RpcCall.execSync "cid1" ["cmd"] 3]) :=
  ExecuteAndRemove_nonzero_exit "img" "cn" none 3 "cmd"
    ⟨⟨Except.ok (), Except.ok (), Except.ok "cid1"⟩, Except.ok (),
      Except.ok ⟨2, "resp"⟩, Except.ok (), Except.ok ()⟩ "cid1" ⟨2, "resp"⟩
    rfl rfl rfl rfl (by decide)

/-- C6: RemoveContainer behaves identically for both values of force —
the result is literally independent of the flag — and always performs the
stop RPC with fixed timeout 15 followed (on stop success) by the remove
RPC, propagating the first failing RPC error. -/
theorem RemoveContainer_force_independent (containerId : String)
    (stopResult removeResult : Except String Unit) :
    (∀ f1 f2 : Bool,
      RemoveContainer containerId f1 stopResult removeResult =
        RemoveContainer containerId f2 stopResult removeResult) ∧
    (∀ e, stopResult = Except.error e → ∀ f : Bool,
      RemoveContainer containerId f stopResult removeResult =
        (some ("failed to stop container " ++ containerId ++ ": " ++ e),
         [RpcCall.stopContainer containerId 15])) ∧
    (∀ e, stopResult = Except.ok () → removeResult = Except.error e →
      ∀ f : Bool,
      RemoveContainer containerId f stopResult removeResult =
        (some ("failed to remove container " ++ containerId ++ ": " ++ e),
         [RpcCall.stopContainer containerId 15,
          RpcCall.removeContainer containerId])) ∧
    (stopResult = Except.ok () → removeResult = Except.ok () → ∀ f : Bool,
      RemoveContainer containerId f stopResult removeResult =
        (none, [RpcCall.stopContainer containerId 15,
          RpcCall.removeContainer containerId])) := by
  refine ⟨fun f1 f2 => rfl, ?_, ?_, ?_⟩
  · rintro e rfl f
    rfl
  · rintro e rfl rfl f
    rfl
  · rintro rfl rfl f
    rfl

/-- Witness for C6: with both RPCs succeeding, force = true yields the
same nil error and stop-then-remove trace as the theorem states. -/
theorem RemoveContainer_force_independent_witness :
    RemoveContainer "c9" true (Except.ok ()) (Except.ok ()) =
      (none, [RpcCall.stopContainer "c9" 15, RpcCall.removeContainer "c9"]) :=
  (RemoveContainer_force_independent "c9" (Except.ok ())
      (Except.ok ())).2.2.2 rfl rfl true

/-- C7: the claim says a failed connect is reported before an internal
deadline elapses, with the message distinguishing a timeout from other
transport errors. The context NewClient builds has no deadline, so its
Err() is never DeadlineExceeded: the timeout branch is unreachable and
every dial failure — a timeout included — produces the one generic
message; no internal deadline bounds the blocking dial at all. -/
theorem NewClient_deadline_branch_unreachable
    (endpoint namespaceArg e : String) (ctxCanceled : Bool) :
    newClientCtxErr ctxCanceled ≠ CtxErrKind.deadlineExceeded ∧
    NewClient endpoint namespaceArg (some e) ctxCanceled =
      Except.error ("failed to connect to crio endpoint " ++
        (if endpoint = "" then "unix:///var/run/crio/crio.sock"
         else endpoint) ++ ": " ++ e) := by
  have h : newClientCtxErr ctxCanceled ≠ CtxErrKind.deadlineExceeded := by
    cases ctxCanceled <;> simp [newClientCtxErr]
  exact ⟨h, by simp [NewClient, h]⟩

/-- C8: GetContainerById projects the status id and metadata name into
the returned ContainerInfo when the RPC succeeds with a non-null status
whose metadata is present, and fails with ContainerExecFailed when the
RPC errors, the response is nil, or the status is nil. -/
theorem GetContainerById_projection (containerId : String)
    (rpc : Except String (Option ContainerStatusResponse)) :
    (∀ e, rpc = Except.error e → GetContainerById containerId rpc =
      GoResult.ok (ContainerInfo.empty,
        some ("failed to get container status for container " ++
          containerId ++ ": " ++ e), RespCode.containerExecFailed)) ∧
    (rpc = Except.ok none → GetContainerById containerId rpc =
      GoResult.ok (ContainerInfo.empty,
        some ("no response status found for container " ++ containerId),
        RespCode.containerExecFailed)) ∧
    (∀ response, rpc = Except.ok (some response) → response.status = none →
      GetContainerById containerId rpc =
        GoResult.ok (ContainerInfo.empty,
          some ("no response status found for container " ++ containerId),
          RespCode.containerExecFailed)) ∧
    (∀ response st md, rpc = Except.ok (some response) →
      response.status = some st → st.metadata = some md →
      GetContainerById containerId rpc =
        GoResult.ok (⟨st.id, md.name, st.labels⟩, none, RespCode.okCode)) := by
  refine ⟨?_, ?_, ?_, ?_⟩
  · rintro e rfl
    rfl
  · rintro rfl
    rfl
  · rintro response rfl h
    simp [GetContainerById, h]
  · rintro response st md rfl h1 h2
    simp [GetContainerById, convertContainerInfo, h1, h2]

/-- Witness for C8: a well-formed status response yields the projected
identifier and name. -/
theorem GetContainerById_projection_witness :
    GetContainerById "c7"
      (Except.ok (some ⟨some ⟨"c7", some ⟨"myname"⟩, none⟩, none⟩)) =
      GoResult.ok (⟨"c7", "myname", none⟩, none, RespCode.okCode) :=
  (GetContainerById_projection "c7"
      (Except.ok (some ⟨some ⟨"c7", some ⟨"myname"⟩, none⟩, none⟩))).2.2.2
    ⟨some ⟨"c7", some ⟨"myname"⟩, none⟩, none⟩ ⟨"c7", some ⟨"myname"⟩, none⟩
    ⟨"myname"⟩ rfl rfl rfl

/-- C9: when creation succeeds but the start RPC fails, ExecuteAndRemove
returns the empty string as the container identifier instead of the id of
the container that was created. -/
theorem ExecuteAndRemove_start_failure_empty_id
    (image containerName : String) (configCmd : Option (List String))
    (timeoutSec : Int) (command : String) (env : ExecEnv) (cid e : String)
    (hPull : env.create.pullImageResult = Except.ok ())
    (hCreate : env.create.createResult = Except.ok cid)
    (hStart : env.startResult = Except.error e) :
    ExecuteAndRemove image containerName configCmd timeoutSec command env =
      (("", "", some ("StartContainer error:" ++ e),
        RespCode.createContainerFailed),
       [RpcCall.imageStatus image, RpcCall.pullImage image,
        RpcCall.createContainer containerName,
        RpcCall.startContainer cid]) := by
  simp [ExecuteAndRemove, CreateContainer, hPull, hCreate, hStart]

/-- Witness for C9: creation yields id "cid2", start fails, and the empty
string is returned as the identifier. -/
theorem ExecuteAndRemove_start_failure_empty_id_witness :
    ExecuteAndRemove "img" "cn" none 3 "cmd"
      ⟨⟨Except.ok (), Except.ok (), Except.ok "cid2"⟩,
        Except.error "boom", Except.ok ⟨0, ""⟩, Except.ok (),
        Except.ok ()⟩ =
      (("", "", some "StartContainer error:boom",
        RespCode.createContainerFailed),
       [RpcCall.imageStatus "img", RpcCall.pullImage "img",
        RpcCall.createContainer "cn", RpcCall.startContainer "cid2"]) :=
  ExecuteAndRemove_start_failure_empty_id "img" "cn" none 3 "cmd"
    ⟨⟨Except.ok (), Except.ok (), Except.ok "cid2"⟩, Except.error "boom",
      Except.ok ⟨0, ""⟩, Except.ok (), Except.ok ()⟩ "cid2" "boom"
    rfl rfl rfl

/-- C10: a non-null status whose metadata pointer is nil makes
convertContainerInfo dereference nil, so GetContainerById panics instead
of returning a result or an error. -/
theorem GetContainerById_nil_metadata_panics (containerId id2 : String)
    (labels : Option (List (String × String)))
    (info : Option (List (String × String))) :
    convertContainerInfo ⟨id2, none, labels⟩ = GoResult.panics ∧
    GetContainerById containerId
      (Except.ok (some ⟨some ⟨id2, none, labels⟩, info⟩)) =
      GoResult.panics :=
  ⟨rfl, rfl⟩

end Crio
